import Mathlib

/-!
# Verification of the Instagram profile scraper core (`scraper.py`)

A shallow embedding of `InstagramScraper` (`src/scraper.py`) in Lean 4.

Modelling conventions:

* Python dictionaries (the scraper passes results around as `dict`s with
  string keys, preserving insertion order) are modelled by the inductive
  `JVal`, whose `obj` constructor carries an ordered association list.
* External libraries (the `requests`/`cloudscraper` transport, `re`,
  `BeautifulSoup`, `json.loads`, `fake_useragent`) and ambient
  nondeterminism (wall-clock timings, the random user agent) are supplied
  by an `Env` record of oracle functions; the repository's own code is
  translated function by function.
* `proxy_manager.py` is imported by `scraper.py` but is not part of the
  available sources, so `ProxyManager` operations are modelled from the
  spec (each such definition is marked `Modelled from the spec:`).
* Side effects that the claims talk about (the randomized pre-request
  delay, the outbound HTTP request with its headers, calls to
  `update_proxy_performance`) are recorded in an explicit `Event` trace.
* Exceptions are modelled by `PyRes` (`ok`/`exn`); every `try/except`
  boundary of the source converts `exn` into the corresponding typed
  error dictionary.
-/

/-- Python values as passed around by the scraper: JSON-like data plus the
result dictionaries.  `obj` keeps fields in insertion order, like a Python
`dict`. -/
inductive JVal where
  | null : JVal
  | bool : Bool → JVal
  | num : Int → JVal
  | str : String → JVal
  | arr : List JVal → JVal
  | obj : List (String × JVal) → JVal

/-- Lookup in an ordered association list (Python `d[k]` / `k in d`). -/
def lookupAssoc {α : Type} (l : List (String × α)) (k : String) : Option α :=
  match l with
  | [] => none
  | p :: rest => if p.1 = k then some p.2 else lookupAssoc rest k

/-- Python `d[k] = v` on an ordered dict: updates in place if the key is
present, otherwise appends. -/
def insertAssoc {α : Type} (l : List (String × α)) (k : String) (v : α) :
    List (String × α) :=
  match l with
  | [] => [(k, v)]
  | p :: rest => if p.1 = k then (k, v) :: rest else p :: insertAssoc rest k v

/-- `d.get(k)` restricted to dictionaries; `none` when `d` is not a dict or
lacks the key. -/
def pyLookup (d : JVal) (k : String) : Option JVal :=
  match d with
  | .obj fs => lookupAssoc fs k
  | _ => none

/-- Python `k in result` on the dictionaries the scraper returns. -/
def hasKey (d : JVal) (k : String) : Bool :=
  (pyLookup d k).isSome

/-- Python `d[k] = v`; the scraper only ever assigns into dictionaries, so
non-dict values are returned unchanged. -/
def pySet (d : JVal) (k : String) (v : JVal) : JVal :=
  match d with
  | .obj fs => .obj (insertAssoc fs k v)
  | other => other

/-- Python truthiness of the values the scraper tests with `if result` /
`if not user`. -/
def pyTruthy (d : JVal) : Bool :=
  match d with
  | .null => false
  | .bool b => b
  | .num n => n != 0
  | .str s => !s.isEmpty
  | .arr es => !es.isEmpty
  | .obj fs => !fs.isEmpty

/-- `pat` is a prefix of `l`. -/
def listPrefixOf : List Char → List Char → Bool
  | [], _ => true
  | _ :: _, [] => false
  | c :: cs, d :: ds => c = d && listPrefixOf cs ds

/-- `pat` occurs somewhere in `l`. -/
def listInfixOf (pat : List Char) : List Char → Bool
  | [] => pat.isEmpty
  | c :: rest => listPrefixOf pat (c :: rest) || listInfixOf pat rest

/-- Substring test, Python `pat in s` for strings. -/
def containsSub (s pat : String) : Bool :=
  listInfixOf pat.data s.data

/-- Replace every occurrence of the nonempty pattern `pat` by `rep`,
scanning left to right (Python `str.replace`).  `fuel` is the remaining
input length, making the recursion structural. -/
def replaceFuel (pat rep : List Char) : Nat → List Char → List Char
  | _, [] => []
  | 0, l => l
  | fuel + 1, c :: rest =>
    if !pat.isEmpty && listPrefixOf pat (c :: rest) then
      rep ++ replaceFuel pat rep fuel (List.drop (pat.length - 1) rest)
    else c :: replaceFuel pat rep fuel rest

/-- Python `s.replace(pat, rep)` for a nonempty pattern. -/
def pyReplace (s pat rep : String) : String :=
  ⟨replaceFuel pat.data rep.data s.data.length s.data⟩

/-- Python `s.upper()`.  Lean's `Char.toUpper` folds ASCII only; the
markers and suffixes the scraper cares about are ASCII. -/
def strUpper (s : String) : String :=
  ⟨s.data.map Char.toUpper⟩

/-- Python `s.lower()` (ASCII folding, as for `strUpper`). -/
def strLower (s : String) : String :=
  ⟨s.data.map Char.toLower⟩

/-- Python `c in s` for a single character. -/
def chContains (s : String) (c : Char) : Bool :=
  s.data.contains c

/-- Python `s.strip()`: drop surrounding whitespace. -/
def pyStrip (s : String) : String :=
  ⟨((s.data.dropWhile Char.isWhitespace).reverse.dropWhile
    Char.isWhitespace).reverse⟩

/-- Python `x or y` for an optional string against a string default
(`client_ip or "direct"`): `None` and the empty string are falsy. -/
def pyOrStr (o : Option String) (dflt : String) : String :=
  match o with
  | none => dflt
  | some s => if s.isEmpty then dflt else s

/-- Python truthiness of an optional string (`if client_ip:`). -/
def truthyOpt (o : Option String) : Bool :=
  match o with
  | none => false
  | some s => !s.isEmpty

/-- Python `str(...)` as used in f-string interpolation of cache keys:
`str(None) = "None"`. -/
def optFmt (o : Option String) : String :=
  match o with
  | none => "None"
  | some s => s

/-- `InstagramScraper._count_data_points`: recursively counts mapping keys
and sequence elements of a result (`scraper.py` lines 522-538). -/
def countDataPoints : JVal → Nat
  | .obj fs => fs.length + countPairs fs
  | .arr es => es.length + countElems es
  | _ => 0
where
  countPairs : List (String × JVal) → Nat
    | [] => 0
    | p :: rest => countDataPoints p.2 + countPairs rest
  countElems : List JVal → Nat
    | [] => 0
    | j :: rest => countDataPoints j + countElems rest

/-- Exception-aware computation: `exn` marks a Python exception that will be
caught at the enclosing `try/except` boundary. -/
inductive PyRes (α : Type) where
  | ok : α → PyRes α
  | exn : PyRes α

namespace PyRes

def bind {α β : Type} (x : PyRes α) (f : α → PyRes β) : PyRes β :=
  match x with
  | .ok a => f a
  | .exn => .exn

def map {α β : Type} (f : α → β) (x : PyRes α) : PyRes β :=
  match x with
  | .ok a => .ok (f a)
  | .exn => .exn

instance : Monad PyRes where
  pure := .ok
  bind := bind
  map := map

end PyRes

/-! ## Count-string parsing (`_parse_count_string`, `_extract_count`)

`_parse_count_string` feeds strings into Python's `float()`/`int()`.
Those two parsers are modelled below over exact decimal values `(m, k)`
standing for `m / 10^k`.  Python's `float()` rounds to an IEEE double;
the model keeps the exact decimal value, which coincides with CPython on
the counts evaluated here, and models the overflow-to-infinity threshold
(values at or beyond `2^1024 - 2^970` round to `inf`, making the
subsequent `int()` raise, which `_parse_count_string` turns into `0`).
`float("inf"/"nan")` parses in CPython but also makes `int()` raise, so
the model folds those into a failed parse as well: the observable result
(`0`) is identical. -/

/-- Python whitespace stripped by `float()`/`int()`. -/
def isPyWs (c : Char) : Bool :=
  c = ' ' || c = '\t' || c = '\n' || c = '\r' || c = '\x0b' || c = '\x0c'

/-- Strip leading and trailing Python whitespace. -/
def trimWs (l : List Char) : List Char :=
  ((l.dropWhile isPyWs).reverse.dropWhile isPyWs).reverse

/-- A digit group as accepted inside Python numeric literals: digits with
single underscores strictly between digits.  Returns the digits with
underscores removed, or `none` if the group is malformed.  The empty group
is accepted (callers decide whether emptiness is allowed). -/
def uGroup : List Char → Option (List Char)
  | [] => some []
  | c :: '_' :: e :: rest =>
    if c.isDigit && e.isDigit then (uGroup (e :: rest)).map (c :: ·) else none
  | _ :: '_' :: [] => none
  | c :: rest =>
    if c.isDigit then (uGroup rest).map (c :: ·) else none

/-- Value of a list of decimal digits. -/
def digitsVal (l : List Char) : Nat :=
  l.foldl (fun a c => 10 * a + (c.toNat - 48)) 0

/-- Split at the first character satisfying `p`; the second component is
`some` of the remainder when a split point exists. -/
def splitFirst (p : Char → Bool) : List Char → List Char × Option (List Char)
  | [] => ([], none)
  | c :: rest =>
    if p c then ([], some rest)
    else
      let (a, b) := splitFirst p rest
      (c :: a, b)

/-- IEEE-double overflow threshold `2^1024 - 2^970`: decimal values with
magnitude at or beyond this round to infinity in CPython's `float()`.
Written as a literal so the kernel need not unfold a 1024-deep power. -/
def dblOverflow : Int := 179769313486231580793728971405303415079934132710037826936173778980444968292764750946649017977587207096330286416692887910946555547851940402630657488671505820681908902000708383676273854845817711531764475730270069855571366959622842914819860834936475292719074168444365510704342711559699508093042880177904174497792

/-- `|m| / 10^k` is at or beyond the double-overflow threshold. -/
def decOverflow (m : Int) (k : Nat) : Bool :=
  dblOverflow * (10 : Int) ^ k ≤ |m|

/-- Python `float(s)` as an exact decimal `(m, k)` standing for `m / 10^k`:
`some` when the string parses to a finite value, `none` when `float()`
raises or yields a non-finite value (see the section comment). -/
def pyFloat (s : String) : Option (Int × Nat) :=
  let l := trimWs s.data
  let (neg, l) :=
    match l with
    | '+' :: r => (false, r)
    | '-' :: r => (true, r)
    | _ => (false, l)
  let low := l.map Char.toLower
  if low = "inf".data || low = "infinity".data || low = "nan".data then none
  else
    let (mant, expPart) := splitFirst (fun c => c = 'e' || c = 'E') l
    let expVal : Option Int :=
      match expPart with
      | none => some 0
      | some ep =>
        let (eneg, ed) :=
          match ep with
          | '+' :: r => (false, r)
          | '-' :: r => (true, r)
          | _ => (false, ep)
        match uGroup ed with
        | some ds =>
          if ds.isEmpty then none
          else some (if eneg then -(digitsVal ds : Int) else (digitsVal ds : Int))
        | none => none
    match expVal with
    | none => none
    | some e =>
      let (ipart, fpart) := splitFirst (fun c => c = '.') mant
      let fchars := fpart.getD []
      match uGroup ipart, uGroup fchars with
      | some ids, some fds =>
        if ids.isEmpty && fds.isEmpty then none
        else
          let m0 : Nat := digitsVal ids * 10 ^ fds.length + digitsVal fds
          let mSigned : Int := if neg then -(m0 : Int) else (m0 : Int)
          let (m, k) :=
            match e with
            | .ofNat n => (mSigned * (10 : Int) ^ n, fds.length)
            | .negSucc n => (mSigned, fds.length + (n + 1))
          if decOverflow m k then none else some (m, k)
      | _, _ => none

/-- Python `int(s)` for base-10 string input: optional whitespace, optional
sign, digits with single underscores between digits. -/
def pyInt (s : String) : Option Int :=
  let l := trimWs s.data
  let (neg, l) :=
    match l with
    | '+' :: r => (false, r)
    | '-' :: r => (true, r)
    | _ => (false, l)
  match uGroup l with
  | some ds =>
    if ds.isEmpty then none
    else some (if neg then -(digitsVal ds : Int) else (digitsVal ds : Int))
  | none => none

/-- Python `int(x)` on the finite decimal `m / 10^k`: truncation toward
zero. -/
def truncDec (m : Int) (k : Nat) : Int :=
  if 0 ≤ m then (m.toNat / 10 ^ k : Nat) else -(((-m).toNat / 10 ^ k : Nat) : Int)

/-- `InstagramScraper._parse_count_string` (`scraper.py` lines 506-520):
strip commas, uppercase, scale by a `K`/`M` suffix; any exception in the
numeric conversions yields `0`.  The multiply-by-scale step can overflow
the IEEE double range, in which case `int()` raises and the result is `0`. -/
def parseCountString (s : String) : Int :=
  let cs := strUpper (pyReplace s "," "")
  if chContains cs 'K' then
    match pyFloat (pyReplace cs "K" "") with
    | some (m, k) =>
      let m' := m * 1000
      if decOverflow m' k then 0 else truncDec m' k
    | none => 0
  else if chContains cs 'M' then
    match pyFloat (pyReplace cs "M" "") with
    | some (m, k) =>
      let m' := m * 1000000
      if decOverflow m' k then 0 else truncDec m' k
    | none => 0
  else
    match pyInt cs with
    | some n => n
    | none => 0

/-- The parse-failure predicate realised by `_parse_count_string`: after
comma removal and uppercasing, the remaining numeric text is rejected by
Python's `float()`/`int()`. -/
def countParseFails (s : String) : Bool :=
  let cs := strUpper (pyReplace s "," "")
  if chContains cs 'K' then (pyFloat (pyReplace cs "K" "")).isNone
  else if chContains cs 'M' then (pyFloat (pyReplace cs "M" "")).isNone
  else (pyInt cs).isNone

/-- The claim's notion of a well-formed count string, taken from its own
words: "a number optionally suffixed by K or M", i.e. digits, an optional
fractional part, and an optional `K`/`M` suffix. -/
def isNumberKM (s : String) : Bool :=
  let l := s.data
  let (body, suffixOk) :=
    match l.reverse with
    | 'K' :: r => (r.reverse, true)
    | 'M' :: r => (r.reverse, true)
    | _ => (l, true)
  let (ipart, fpart) := splitFirst (fun c => c = '.') body
  suffixOk && !ipart.isEmpty && ipart.all Char.isDigit &&
    (match fpart with
     | none => true
     | some fs => !fs.isEmpty && fs.all Char.isDigit)

/-! ## The proxy manager collaborator

`scraper.py` imports `proxy_manager` (`from proxy_manager import
proxy_manager`), whose source is not part of the available files.  Its
operations are therefore modelled from the spec (sections 3 and 4.1) and
marked as such.  The scraper-side claims depend only on whether
`get_user_ip_proxy` / `get_best_proxy` yield a candidate and on the
`update_proxy_performance` calls recorded in the event trace. -/

/-- Modelled from the spec: a `ProxyCandidate` as described in the data
model — address, performance counters, last latency, and the user-IP flag.
Timestamps (`last_used_at`) are omitted: the model has no clock and no
claim mentions them. -/
structure ProxyCandidate where
  ip : String
  port : Nat
  successCount : Nat
  failureCount : Nat
  lastLatency : ℚ
  isUserIp : Bool
deriving DecidableEq

/-- Modelled from the spec: a `UserIPEntry` of the user-IP registry
(`ip`, `user_agent`, `use_count`; timestamps omitted as above). -/
structure UserIPEntry where
  ip : String
  userAgent : Option String
  useCount : Nat
deriving DecidableEq

/-- Modelled from the spec: the proxy manager's state — the candidate pool
(containing both scraped proxies and registered user IPs, distinguished by
`isUserIp`) and the user-IP registry. -/
structure PMState where
  pool : List ProxyCandidate
  userIPs : List UserIPEntry
deriving DecidableEq

/-- Modelled from the spec: `get_user_ip_proxy(ip)` looks up a previously
registered client IP among the user-IP candidates. -/
def getUserIpProxy (pm : PMState) (ip : String) : Option ProxyCandidate :=
  pm.pool.find? (fun c => c.isUserIp && c.ip = ip)

/-- Modelled from the spec: the proxy score — success rate
`s / (s + f + 1)` minus normalized latency (`latency / 10`), kept as an
exact fraction `(numerator, positive denominator)` so comparisons stay in
integer arithmetic. -/
def scoreFrac (c : ProxyCandidate) : Int × Int :=
  let m : Int := (c.successCount : Int) + (c.failureCount : Int) + 1
  (10 * (c.successCount : Int) * (c.lastLatency.den : Int)
      - c.lastLatency.num * m,
   10 * m * (c.lastLatency.den : Int))

/-- `score a ≤ score b`, by cross-multiplication (both denominators are
positive). -/
def scoreLe (a b : ProxyCandidate) : Bool :=
  (scoreFrac a).1 * (scoreFrac b).2 ≤ (scoreFrac b).1 * (scoreFrac a).2

/-- Modelled from the spec: `get_best_proxy()` selects the highest-scoring
non-user-IP candidate (ties broken in favour of the most recently added,
i.e. the later list entry) and returns `none` on an empty pool. -/
def getBestProxy (pm : PMState) : Option ProxyCandidate :=
  (pm.pool.filter (fun c => !c.isUserIp)).foldl
    (fun best c =>
      match best with
      | none => some c
      | some b => if scoreLe b c then some c else some b)
    none

/-- Modelled from the spec: `update_proxy_performance(ip, success,
latency)` records one outcome against the candidate matching `ip`
(pool proxy or user IP alike) and is a no-op for an unknown IP. -/
def updateProxyPerformance (pm : PMState) (ip : String) (success : Bool)
    (latency : ℚ) : PMState :=
  { pm with
    pool := pm.pool.map (fun c =>
      if c.ip = ip then
        { c with
          successCount := c.successCount + (if success then 1 else 0),
          failureCount := c.failureCount + (if success then 0 else 1),
          lastLatency := latency }
      else c) }

/-- Modelled from the spec: `add_user_ip(ip, user_agent)` upserts the
registry entry and ensures a user-IP candidate exists in the pool;
idempotent and never raising. -/
def addUserIp (pm : PMState) (ip : String) (userAgent : Option String) :
    PMState :=
  let userIPs :=
    if pm.userIPs.any (fun e => e.ip = ip) then
      pm.userIPs.map (fun e =>
        if e.ip = ip then
          { e with userAgent := userAgent, useCount := e.useCount + 1 }
        else e)
    else pm.userIPs ++ [⟨ip, userAgent, 1⟩]
  let pool :=
    if pm.pool.any (fun c => c.isUserIp && c.ip = ip) then pm.pool
    else pm.pool ++ [⟨ip, 0, 0, 0, 0, true⟩]
  { pool := pool, userIPs := userIPs }

/-! ## Transport environment, events, and scraper state -/

/-- An HTTP response as far as the scraper inspects it: status code and
body text. -/
structure Response where
  status : Nat
  body : String
deriving DecidableEq

/-- Outcome of one `session.get` call: a response, or one of the exception
classes `_make_request_with_proxy` catches (`requests.exceptions.Timeout`,
`requests.exceptions.ConnectionError`, any other `Exception`). -/
inductive FetchOutcome where
  | ok : Response → FetchOutcome
  | timeout : FetchOutcome
  | connError : FetchOutcome
  | exn : FetchOutcome
deriving DecidableEq

/-- The `proxies` dictionary handed to `session.get`
(`proxies` with `http`/`https` entries). -/
structure ProxySetting where
  http : String
  https : String
deriving DecidableEq

/-- Observable side effects of the scraper, in order of occurrence. -/
inductive Event where
  /-- the randomized pre-request delay (`time.sleep(random.uniform(...))`) -/
  | sleepRand : Event
  /-- one outbound `session.get`, with the headers and proxies it was
  given -/
  | httpGet : String → List (String × String) → Option ProxySetting → Event
  /-- one `proxy_manager.update_proxy_performance(ip, success, latency)`
  call -/
  | perfUpdate : String → Bool → ℚ → Event
deriving DecidableEq

/-- Is this event a proxy-performance update? -/
def isPerfUpdate : Event → Bool
  | .perfUpdate _ _ _ => true
  | _ => false

/-- Oracles for everything outside the repository's own code: the HTTP
transport, the third-party parsers (`re`, `json.loads`, `BeautifulSoup`),
the random user agent, and wall-clock readings. -/
structure Env where
  /-- `session.get(url, proxies=...)`: the transport's outcome. -/
  fetch : String → Option ProxySetting → FetchOutcome
  /-- `_extract_json_from_html` (`scraper.py` lines 297-324): regex plus
  BeautifulSoup extraction of an embedded JSON block, `None` on failure;
  abstracted as an oracle over the body because it is driven entirely by
  `re`/`json`/`bs4`. -/
  extractJson : String → Option JVal
  /-- `response.json()`: `some` parsed data or `none` when
  `json.loads` raises. -/
  jsonLoads : String → Option JVal
  /-- The `(property-or-name, content)` meta-tag pairs BeautifulSoup finds
  in a body, in document order (`_parse_html_directly` lines 392-397). -/
  metaTags : String → List (String × String)
  /-- `re.search(pattern, text, re.IGNORECASE)` restricted to group 1 of
  the first match, as used by `_extract_count` (lines 499-504). -/
  regexSearch : String → String → Option String
  /-- `self.ua.random`. -/
  randomUA : String
  /-- the measured `time.time() - start_time` for a request to a url -/
  responseTime : String → ℚ
  /-- `int((time.time() - start_time) * 1000)` for the whole scrape -/
  extractionMs : Int

/-- Mutable state of an `InstagramScraper` instance plus the proxy
manager.  The single `cachetools.TTLCache` (maxsize 100, ttl 300) holds
both raw responses (keys `request:...`) and scraped profiles (keys
`profile:...`); the key prefixes are disjoint, so it is modelled as two
maps.  TTL expiry ("within the TTL window") is modelled as presence of the
entry; capacity eviction is not modelled (no claim touches it). -/
structure SState where
  reqCache : List (String × Response)
  profCache : List (String × JVal)
  pm : PMState
  reqCount : Nat

/-- `InstagramScraper.base_headers` (`scraper.py` lines 34-46). -/
def baseHeaders : List (String × String) :=
  [("Accept",
    "text/html,application/xhtml+xml,application/xml;q=0.9,image/webp,*/*;q=0.8"),
   ("Accept-Language", "en-US,en;q=0.9"),
   ("Accept-Encoding", "gzip, deflate, br"),
   ("DNT", "1"),
   ("Connection", "keep-alive"),
   ("Upgrade-Insecure-Requests", "1"),
   ("Sec-Fetch-Dest", "document"),
   ("Sec-Fetch-Mode", "navigate"),
   ("Sec-Fetch-Site", "none"),
   ("Sec-Fetch-User", "?1"),
   ("Cache-Control", "max-age=0")]

/-- `InstagramScraper._get_headers` (lines 63-67): base headers plus a
`User-Agent` — the given one if truthy, else `self.ua.random`. -/
def mkHeaders (env : Env) (userAgent : Option String) :
    List (String × String) :=
  baseHeaders ++
    [("User-Agent",
      match userAgent with
      | some s => if s.isEmpty then env.randomUA else s
      | none => env.randomUA)]

/-! ## `_make_request_with_proxy` (`scraper.py` lines 69-183) -/

/-- The route chosen by lines 79-111: `user_ip` when a truthy client IP is
registered, else the best pool proxy when one exists, else direct.  With a
truthy client IP but no registered entry the code falls back to the same
pool-then-direct chain as the no-client-IP branch. -/
inductive Route where
  | userIp : String → Route
  | pool : ProxyCandidate → Route
  | direct : Route
deriving DecidableEq

/-- Route selection of `_make_request_with_proxy` (lines 79-111).
`if client_ip:` is Python truthiness, so an empty string behaves like no
client IP. -/
def selectRoute (pm : PMState) (clientIp : Option String) : Route :=
  if truthyOpt clientIp then
    match getUserIpProxy pm (clientIp.getD "") with
    | some up => .userIp up.ip
    | none =>
      match getBestProxy pm with
      | some bp => .pool bp
      | none => .direct
  else
    match getBestProxy pm with
    | some bp => .pool bp
    | none => .direct

/-- The `proxies` dictionary actually handed to `session.get`: only the
pool route passes one.  On the `user_ip` route a proxy dictionary
with `http://` plus the user IP is built (lines 87-90) but the
`session.get` call in that branch (lines 133-138) does not pass it, so it
is not part of the emitted request. -/
def emittedProxies : Route → Option ProxySetting
  | .pool bp =>
    some ⟨"http://" ++ bp.ip ++ ":" ++ toString bp.port,
          "http://" ++ bp.ip ++ ":" ++ toString bp.port⟩
  | _ => none

/-- The IP an outcome is recorded against (lines 156, 170, 175, 180):
the `client_ip` argument on the `user_ip` route, the pool candidate's IP
on the pool route.  (`user_ip` implies a truthy `client_ip`, so the
`getD` default is never used.) -/
def routePerfIp (route : Route) (clientIp : Option String) :
    Option String :=
  match route with
  | .userIp _ => some (clientIp.getD "")
  | .pool bp => some bp.ip
  | .direct => none

/-- The `update_proxy_performance` events and state change for one
recorded outcome (a no-op on the direct route). -/
def recordPerf (s : SState) (route : Route) (clientIp : Option String)
    (success : Bool) (latency : ℚ) : SState × List Event :=
  match routePerfIp route clientIp with
  | some ip =>
    ({ s with pm := updateProxyPerformance s.pm ip success latency },
     [.perfUpdate ip success latency])
  | none => (s, [])

/-- `InstagramScraper._make_request_with_proxy` (lines 69-183) as a state
transformer returning the optional response, the new state, and the event
trace.  On a cache hit the cached response is returned before the delay,
the request, and any performance bookkeeping.  The forwarding headers of
lines 139-141 are assigned into the local `headers` dict only after
`session.get` has returned, so they never reach the emitted request and
the assignment has no observable effect. -/
def makeRequestWithProxy (env : Env) (s : SState) (url : String)
    (clientIp : Option String) (userAgent : Option String)
    (useCache : Bool) : Option Response × SState × List Event :=
  let cacheKey := "request:" ++ url ++ ":" ++ optFmt clientIp
  match useCache, lookupAssoc s.reqCache cacheKey with
  | true, some resp => (some resp, s, [])
  | _, _ =>
    let route := selectRoute s.pm clientIp
    let headers := mkHeaders env userAgent
    let evBase : List Event :=
      [.sleepRand, .httpGet url headers (emittedProxies route)]
    match env.fetch url (emittedProxies route) with
    | .ok resp =>
      let succ := resp.status == 200
      let s1 := { s with reqCount := s.reqCount + 1 }
      let (s2, evPerf) :=
        recordPerf s1 route clientIp succ (env.responseTime url)
      let s3 :=
        if resp.status == 200 && useCache then
          { s2 with reqCache := insertAssoc s2.reqCache cacheKey resp }
        else s2
      (some resp, s3, evBase ++ evPerf)
    | .timeout =>
      let (s2, evPerf) := recordPerf s route clientIp false 10
      (none, s2, evBase ++ evPerf)
    | .connError =>
      let (s2, evPerf) := recordPerf s route clientIp false 10
      (none, s2, evBase ++ evPerf)
    | .exn =>
      let (s2, evPerf) := recordPerf s route clientIp false 10
      (none, s2, evBase ++ evPerf)

/-! ## Extraction pipeline (`scraper.py` lines 233-520) -/

/-- A strategy-level error dictionary (`{"error": kind}`). -/
def errObj (kind : String) : JVal :=
  .obj [("error", .str kind)]

/-- Python `x.get(k, dflt)`: only dictionaries have `.get`; any other
receiver raises `AttributeError`. -/
def pyGet (j : JVal) (k : String) (dflt : JVal) : PyRes JVal :=
  match j with
  | .obj fs => .ok ((lookupAssoc fs k).getD dflt)
  | _ => .exn

/-- Python `x.get(k)` (default `None`). -/
def pyGetNone (j : JVal) (k : String) : PyRes JVal :=
  pyGet j k .null

/-- `x.get(k1, {}).get(k2, dflt)`, the nested-count access pattern. -/
def pyGet2 (j : JVal) (k1 k2 : String) (dflt : JVal) : PyRes JVal :=
  (pyGet j k1 (.obj [])).bind (fun inner => pyGet inner k2 dflt)

/-- Python `a or b` on values (truthiness chain). -/
def pyOrJ (a b : JVal) : JVal :=
  if pyTruthy a then a else b

/-- Python `needle in container` for a string needle: key membership in a
dict, element equality in a list, substring in a string; a `TypeError`
(modelled as `exn`) on non-iterable values. -/
def pyInOp (container : JVal) (needle : String) : PyRes Bool :=
  match container with
  | .obj fs => .ok (lookupAssoc fs needle).isSome
  | .arr es => .ok (es.any (fun e =>
      match e with
      | .str t => t = needle
      | _ => false))
  | .str s => .ok (containsSub s needle)
  | _ => .exn

/-- Python `str(...)` for f-string interpolation (`f"https://instagram.com/p/{...}"`).
Scalars are rendered exactly; the container renderings are abbreviated
(the scraper only ever formats shortcode values, and no claim evaluates
the rendering of a container). -/
def pyStr : JVal → String
  | .str s => s
  | .num n => toString n
  | .bool b => if b then "True" else "False"
  | .null => "None"
  | .arr _ => "[...]"
  | .obj _ => "\x7b...\x7d"

/-- Python `x[0]`: list head, first character of a string, int-key lookup
on a dict (always a `KeyError` here since the data is string-keyed), error
otherwise. -/
def pyIndex0 : JVal → PyRes JVal
  | .arr (e :: _) => .ok e
  | .arr [] => .exn
  | .str s =>
    match s.data with
    | c :: _ => .ok (.str ⟨[c]⟩)
    | [] => .exn
  | _ => .exn

/-- Python `x[:n]` slicing: works on lists and strings, raises otherwise. -/
def pySlice (j : JVal) (n : Nat) : PyRes JVal :=
  match j with
  | .arr es => .ok (.arr (es.take n))
  | .str s => .ok (.str ⟨s.data.take n⟩)
  | _ => .exn

/-- `InstagramScraper._extract_caption` (lines 478-486): its internal
`try/except` turns any failure into the empty string. -/
def extractCaption (node : JVal) : JVal :=
  let compute : PyRes JVal :=
    (pyGet2 node "edge_media_to_caption" "edges" (.arr [])).bind fun edges =>
      if pyTruthy edges then
        (pyIndex0 edges).bind fun first =>
          (pyGet first "node" (.obj [])).bind fun n =>
            (pyGet n "text" (.str "")).bind fun t =>
              pySlice t 200
      else .ok (.str "")
  match compute with
  | .ok v => v
  | .exn => .str ""

/-- `InstagramScraper._get_post_type` (lines 488-497): the membership
tests on `__typename`, which raise when it is not iterable
(uncaught here, caught at the strategy boundary). -/
def getPostType (node : JVal) : PyRes String :=
  (pyGet node "__typename" (.str "")).bind fun tn =>
    (pyInOp tn "Image").bind fun b1 =>
      if b1 then .ok "IMAGE"
      else
        (pyInOp tn "Video").bind fun b2 =>
          if b2 then .ok "VIDEO"
          else
            (pyInOp tn "Sidecar").bind fun b3 =>
              if b3 then .ok "CAROUSEL" else .ok "UNKNOWN"

/-- One post dictionary of `_extract_posts` (lines 462-473), given an
the truthy `node` dict of an `edge`. -/
def buildPost (node : JVal) : PyRes JVal :=
  (pyGet node "id" (.str "")).bind fun pid =>
    (pyGet node "shortcode" (.str "")).bind fun sc =>
      let caption := extractCaption node
      (getPostType node).bind fun ptype =>
        (pyGet2 node "edge_liked_by" "count" (.num 0)).bind fun likes =>
          (pyGet2 node "edge_media_to_comment" "count" (.num 0)).bind
            fun comments =>
            (pyGet node "taken_at_timestamp" (.num 0)).bind fun ts =>
              (pyGet node "display_url" (.str "")).bind fun murl =>
                (pyGet node "is_video" (.bool false)).bind fun isv =>
                  .ok (.obj
                    [("id", pid),
                     ("shortcode", sc),
                     ("caption", caption),
                     ("type", .str ptype),
                     ("likes", likes),
                     ("comments", comments),
                     ("timestamp", ts),
                     ("url", .str ("https://instagram.com/p/" ++ pyStr sc)),
                     ("media_url", murl),
                     ("is_video", isv)])

/-- The loop body of `_extract_posts` over `edges[:10]`: falsy nodes are
skipped, truthy non-dict nodes raise at the first `.get`. -/
def extractPostsLoop : List JVal → PyRes (List JVal)
  | [] => .ok []
  | edge :: rest =>
    (pyGet edge "node" (.obj [])).bind fun node =>
      if !pyTruthy node then extractPostsLoop rest
      else
        (buildPost node).bind fun post =>
          (extractPostsLoop rest).map (post :: ·)

/-- `InstagramScraper._extract_posts` (lines 452-476).  `edges[:10]`
slices lists and strings and raises on anything else; a nonempty string
then raises at `edge.get`, so only the empty string survives among
non-list shapes. -/
def extractPosts (userData : JVal) : PyRes (List JVal) :=
  (pyGet2 userData "edge_owner_to_timeline_media" "edges" (.arr [])).bind
    fun edges =>
    match edges with
    | .arr es => extractPostsLoop (es.take 10)
    | .str s => if s.isEmpty then .ok [] else .exn
    | _ => .exn

/-- The shared profile+posts payload built by `_parse_html_response`
(lines 352-381): identity and statistics from the user dict, the five most
recent posts, and the extracted-post total. -/
def buildProfilePayload (user : JVal) (identity : JVal) : PyRes JVal :=
  (pyGet2 user "edge_followed_by" "count" (.num 0)).bind fun followers =>
    (pyGet2 user "edge_follow" "count" (.num 0)).bind fun following =>
      (pyGet2 user "edge_owner_to_timeline_media" "count" (.num 0)).bind
        fun postsCount =>
        (extractPosts user).bind fun posts =>
          .ok (.obj
            [("profile", .obj
              [("identity", identity),
               ("statistics", .obj
                 [("followers", followers),
                  ("following", following),
                  ("posts", postsCount)])]),
             ("posts", .obj
               [("recent", .arr (posts.take 5)),
                ("total", .num posts.length)])])

/-- The identity dict of `_parse_html_response` (lines 354-364):
defaults for missing keys, `or`-chain for the profile picture. -/
def buildIdentityHtml (user : JVal) (username : String) : PyRes JVal :=
  (pyGet user "username" (.str username)).bind fun uname =>
    (pyGet user "full_name" (.str "")).bind fun fullName =>
      (pyGet user "biography" (.str "")).bind fun bio =>
        (pyGet user "external_url" (.str "")).bind fun ext =>
          (pyGet user "is_private" (.bool false)).bind fun ispriv =>
            (pyGet user "is_verified" (.bool false)).bind fun isver =>
              (pyGetNone user "profile_pic_url_hd").bind fun ppHd =>
                (pyGetNone user "profile_pic_url").bind fun pp =>
                  .ok (.obj
                    [("username", uname),
                     ("full_name", fullName),
                     ("biography", bio),
                     ("external_url", ext),
                     ("is_private", ispriv),
                     ("is_verified", isver),
                     ("profile_pic_url", pyOrJ (pyOrJ ppHd pp) (.str ""))])

/-- A key of one of the known nesting paths (line 331-335): the literal
`0` in the first path is an int key. -/
inductive PathKey where
  | strK : String → PathKey
  | intK : Nat → PathKey

/-- One navigation step (lines 338-344): `isinstance(current, dict) and
key in current`.  An int key never matches a JSON-derived dict (its keys
are strings), and a list fails the `isinstance` check, so the int step
always yields `None` — making the first path dead on real data. -/
def navStep (j : JVal) : PathKey → Option JVal
  | .strK k =>
    match j with
    | .obj fs => lookupAssoc fs k
    | _ => none
  | .intK _ => none

/-- Navigate a whole path, `none` as soon as a step fails. -/
def navigatePath (j : JVal) : List PathKey → Option JVal
  | [] => some j
  | k :: rest =>
    match navStep j k with
    | some j2 => navigatePath j2 rest
    | none => none

/-- The three candidate paths of `_parse_html_response` (lines 331-335). -/
def userPaths : List (List PathKey) :=
  [[.strK "entry_data", .strK "ProfilePage", .intK 0, .strK "graphql",
    .strK "user"],
   [.strK "graphql", .strK "user"],
   [.strK "user"]]

/-- The path loop of `_parse_html_response` (lines 337-347): first path
whose endpoint is truthy and contains a `username` member wins; the
membership test itself can raise on non-iterable endpoints. -/
def findUser (j : JVal) : List (List PathKey) → PyRes (Option JVal)
  | [] => .ok none
  | p :: rest =>
    match navigatePath j p with
    | none => findUser j rest
    | some cur =>
      if pyTruthy cur then
        match pyInOp cur "username" with
        | .exn => .exn
        | .ok true => .ok (some cur)
        | .ok false => findUser j rest
      else findUser j rest

/-- `InstagramScraper._parse_html_response` (lines 326-385): locate the
user object along the known paths, build the payload; `USER_DATA_NOT_FOUND`
when no path yields a user, `PARSING_ERROR` when anything raises (the
enclosing `try/except`). -/
def parseHtmlResponse (jsonData : JVal) (username : String) : JVal :=
  match findUser jsonData userPaths with
  | .exn => errObj "PARSING_ERROR"
  | .ok none => errObj "USER_DATA_NOT_FOUND"
  | .ok (some user) =>
    match (buildIdentityHtml user username).bind
        (fun identity => buildProfilePayload user identity) with
    | .ok payload => payload
    | .exn => errObj "PARSING_ERROR"

/-- The identity dict of `_parse_api_response` (lines 424-433); the
profile picture uses nested `.get` defaults rather than an `or`-chain. -/
def buildIdentityApi (user : JVal) : PyRes JVal :=
  (pyGet user "username" (.str "")).bind fun uname =>
    (pyGet user "full_name" (.str "")).bind fun fullName =>
      (pyGet user "biography" (.str "")).bind fun bio =>
        (pyGet user "external_url" (.str "")).bind fun ext =>
          (pyGet user "is_private" (.bool false)).bind fun ispriv =>
            (pyGet user "is_verified" (.bool false)).bind fun isver =>
              (pyGet user "profile_pic_url" (.str "")).bind fun pp =>
                (pyGet user "profile_pic_url_hd" pp).bind fun ppu =>
                  .ok (.obj
                    [("username", uname),
                     ("full_name", fullName),
                     ("biography", bio),
                     ("external_url", ext),
                     ("is_private", ispriv),
                     ("is_verified", isver),
                     ("profile_pic_url", ppu)])

/-- `InstagramScraper._parse_api_response` (lines 422-450): no local
`try/except`; exceptions escape to the `_scrape_via_api` boundary. -/
def parseApiResponse (user : JVal) : PyRes JVal :=
  (buildIdentityApi user).bind fun identity =>
    buildProfilePayload user identity

/-- `InstagramScraper._extract_count` (lines 499-504): group 1 of the
case-insensitive regex match fed to `_parse_count_string`, `0` when the
pattern finds nothing. -/
def extractCount (env : Env) (html : String) (pattern : String) : Int :=
  match env.regexSearch pattern html with
  | some g => parseCountString g
  | none => 0

/-- The count regexes of `_parse_html_directly` (lines 400-402). -/
def followersPattern : String := "(\\d+(?:\\.\\d+)?[KM]?)\\s*Followers"

/-- See `followersPattern`. -/
def followingPattern : String := "(\\d+(?:\\.\\d+)?[KM]?)\\s*Following"

/-- See `followersPattern`. -/
def postsPattern : String := "(\\d+(?:\\.\\d+)?[KM]?)\\s*Posts"

/-- `InstagramScraper._parse_html_directly` (lines 387-420): meta tags
(later occurrences override earlier ones, like repeated dict assignment),
regex-extracted counts, substring heuristics for privacy/verification.
Always returns `{"profile": ...}` — it has no error path. -/
def parseHtmlDirectly (env : Env) (html : String) (username : String) :
    JVal :=
  let metaData : List (String × String) :=
    (env.metaTags html).foldl (fun d p => insertAssoc d p.1 p.2) []
  let followers := extractCount env html followersPattern
  let following := extractCount env html followingPattern
  let posts := extractCount env html postsPattern
  let fullName :=
    pyStrip (pyReplace ((lookupAssoc metaData "og:title").getD "")
      "• Instagram" "")
  .obj
    [("profile", .obj
      [("identity", .obj
        [("username", .str username),
         ("full_name", .str fullName),
         ("biography", .str ((lookupAssoc metaData "og:description").getD "")),
         ("profile_pic_url", .str ((lookupAssoc metaData "og:image").getD "")),
         ("is_private", .bool (containsSub (strLower html) "private")),
         ("is_verified", .bool (containsSub (strLower html) "verified"))]),
       ("statistics", .obj
         [("followers", .num followers),
          ("following", .num following),
          ("posts", .num posts)])])]

/-! ## The two strategies and `scrape_profile` -/

/-- The profile-page url (the formatted `profile` endpoint). -/
def profileUrl (username : String) : String :=
  "https://www.instagram.com/" ++ username ++ "/"

/-- The JSON-API url (the formatted `profile_json` endpoint). -/
def profileJsonUrl (username : String) : String :=
  "https://www.instagram.com/api/v1/users/web_profile_info/?username="
    ++ username

/-- `InstagramScraper._scrape_via_html` (lines 233-263): fetch the profile
page without the request cache, classify the body (private / not found)
before any JSON work, then embedded-JSON parsing with the raw-HTML parser
as fallback.  In the model no branch can raise, so the enclosing
`try/except` (→ `HTML_PARSING_FAILED`) is unreachable: `_parse_html_response`
catches its own exceptions and the library calls of
`_parse_html_directly` are total oracles. -/
def scrapeViaHtml (env : Env) (s : SState) (username : String)
    (clientIp : Option String) (userAgent : Option String) :
    JVal × SState × List Event :=
  let url := profileUrl username
  let t := makeRequestWithProxy env s url clientIp userAgent false
  let s' := t.2.1
  let ev := t.2.2
  match t.1 with
  | none => (errObj "REQUEST_FAILED", s', ev)
  | some r =>
    if r.status ≠ 200 then (errObj "REQUEST_FAILED", s', ev)
    else
      let html := r.body
      if containsSub html "This Account is Private"
          || containsSub (strLower html) "account is private" then
        (errObj "PRIVATE_PROFILE", s', ev)
      else if containsSub html "Sorry, this page isn\x27t available" then
        (errObj "PROFILE_NOT_FOUND", s', ev)
      else
        match env.extractJson html with
        | some jsonData => (parseHtmlResponse jsonData username, s', ev)
        | none => (parseHtmlDirectly env html username, s', ev)

/-- `InstagramScraper._scrape_via_api` (lines 265-295): fetch the JSON
endpoint (request cache enabled), drill into `data.user`, parse.  The
local `headers` dict of lines 269-279 (API headers plus, for a truthy
client IP, `X-Forwarded-For`/`X-Real-IP`) is built but never passed to
`_make_request_with_proxy`, which regenerates headers itself — so it is
unobservable and appears only in this comment.  Any exception (JSON
decode, attribute errors in parsing) lands at the `except` and the
function returns `API_FAILED`. -/
def scrapeViaApi (env : Env) (s : SState) (username : String)
    (clientIp : Option String) (userAgent : Option String) :
    JVal × SState × List Event :=
  let url := profileJsonUrl username
  let t := makeRequestWithProxy env s url clientIp userAgent true
  let s' := t.2.1
  let ev := t.2.2
  match t.1 with
  | some r =>
    if r.status == 200 then
      match env.jsonLoads r.body with
      | none => (errObj "API_FAILED", s', ev)
      | some data =>
        match (pyGet data "data" (.obj [])).bind
            (fun d => pyGet d "user" (.obj [])) with
        | .exn => (errObj "API_FAILED", s', ev)
        | .ok user =>
          if !pyTruthy user then (errObj "USER_NOT_FOUND", s', ev)
          else
            match parseApiResponse user with
            | .ok payload => (payload, s', ev)
            | .exn => (errObj "API_FAILED", s', ev)
    else (errObj "API_FAILED", s', ev)
  | none => (errObj "API_FAILED", s', ev)

/-- The success finalization of `scrape_profile` (lines 213-222): stamp
`extraction_time`, `data_points` (counted after `extraction_time` is in
the dict), `cached = False` and `used_ip`, store the result under the
profile cache key, and return it. -/
def finalizeResult (env : Env) (profKey : String)
    (clientIp : Option String) (r : JVal) (s : SState) (ev : List Event) :
    JVal × SState × List Event :=
  let rA := pySet r "extraction_time" (.num env.extractionMs)
  let rB := pySet rA "data_points" (.num (countDataPoints rA))
  let rC := pySet rB "cached" (.bool false)
  let rD := pySet rC "used_ip" (.str (pyOrStr clientIp "pool_proxy"))
  (rD, { s with profCache := insertAssoc s.profCache profKey rD }, ev)

/-- `InstagramScraper.scrape_profile` (lines 185-231).  On a profile-cache
hit the stored dict is mutated in place (`cached = True`, `used_ip`) and
returned — the model writes the mutated dict back to the cache.  On a
miss, a truthy client IP is registered with the proxy manager, then the
HTML and API strategies run in order; the first result that is truthy and
has no `error` key is finalized and cached, and if both fail the generic
`SCRAPING_FAILED` dict is returned.  The `try/except` around each
strategy call is unreachable in the model because both strategies already
catch their own exceptions. -/
def scrapeProfileMiss (env : Env) (profKey : String) (s0 : SState)
    (username : String) (clientIp userAgent : Option String) :
    JVal × SState × List Event :=
  let t1 := scrapeViaHtml env s0 username clientIp userAgent
  let r1 := t1.1
  if pyTruthy r1 && !hasKey r1 "error" then
    finalizeResult env profKey clientIp r1 t1.2.1 t1.2.2
  else
    let t2 := scrapeViaApi env t1.2.1 username clientIp userAgent
    let r2 := t2.1
    if pyTruthy r2 && !hasKey r2 "error" then
      finalizeResult env profKey clientIp r2 t2.2.1 (t1.2.2 ++ t2.2.2)
    else
      (.obj
        [("error", .str "SCRAPING_FAILED"),
         ("message", .str "All scraping methods failed"),
         ("used_ip", .str (pyOrStr clientIp "direct"))],
       t2.2.1, t1.2.2 ++ t2.2.2)

/-- See `scrapeProfileMiss` for the cache-miss path (lines 197-231). -/
def scrapeProfile (env : Env) (s : SState) (username : String)
    (clientIp : Option String) (userAgent : Option String) :
    JVal × SState × List Event :=
  let profKey := "profile:" ++ username ++ ":" ++ optFmt clientIp
  match lookupAssoc s.profCache profKey with
  | some cachedData =>
    let d1 := pySet cachedData "cached" (.bool true)
    let d2 := pySet d1 "used_ip" (.str (pyOrStr clientIp "direct"))
    (d2, { s with profCache := insertAssoc s.profCache profKey d2 }, [])
  | none =>
    scrapeProfileMiss env profKey
      (if truthyOpt clientIp then
        { s with pm := addUserIp s.pm (clientIp.getD "") userAgent }
      else s)
      username clientIp userAgent

/-! ## Spec-side predicates and concrete scenarios -/

/-- The spec's username shape `^[A-Za-z0-9._]{1,30}$`. -/
def validUsername (s : String) : Bool :=
  1 ≤ s.length && s.length ≤ 30 &&
    s.data.all (fun c => c.isAlphanum || c = '.' || c = '_')

/-- A profile-shaped result: no `error` key and a `profile` key.  Every
value `scrape_profile` stores in the profile cache has this shape. -/
def isProfileShape (r : JVal) : Bool :=
  !hasKey r "error" && hasKey r "profile"

/-- The invariant on the profile cache used by the no-raise claim: every
stored entry is profile-shaped (true of every state reachable from the
initial empty cache). -/
def profCacheWF (s : SState) : Prop :=
  ∀ k v, lookupAssoc s.profCache k = some v → isProfileShape v = true

/-- A well-formed `scrape_profile` outcome: a profile result (with its
`cached`/`used_ip` stamps) or a typed error dictionary with `error`,
`message` and `used_ip`. -/
def wellFormedResult (r : JVal) : Bool :=
  (!hasKey r "error" && hasKey r "profile" && hasKey r "cached"
      && hasKey r "used_ip")
    || (hasKey r "error" && hasKey r "message" && hasKey r "used_ip")

/-- `result["profile"]["statistics"][name]` of a result dictionary. -/
def statLookup (r : JVal) (name : String) : Option JVal :=
  (pyLookup r "profile").bind fun p =>
    (pyLookup p "statistics").bind fun st => pyLookup st name

/-- The initial scraper state: empty caches, empty proxy manager. -/
def sEmpty : SState := ⟨[], [], ⟨[], []⟩, 0⟩

/-- A transport whose every response is a 200 page announcing a private
account (and which defeats JSON extraction and JSON decoding, as an HTML
body does). -/
def envPrivate : Env :=
  { fetch := fun _ _ => .ok ⟨200, "This Account is Private"⟩,
    extractJson := fun _ => none,
    jsonLoads := fun _ => none,
    metaTags := fun _ => [],
    regexSearch := fun _ _ => none,
    randomUA := "RUA",
    responseTime := fun _ => 1,
    extractionMs := 5 }

/-- A transport returning a plain 200 page with no markers, no embedded
JSON, no meta tags, and no count matches. -/
def envPlain : Env :=
  { envPrivate with fetch := fun _ _ => .ok ⟨200, "hello world"⟩ }

/-- A transport that times out on every request. -/
def envDown : Env :=
  { envPrivate with fetch := fun _ _ => .timeout }

/-- A registered user-IP candidate for the routing scenarios. -/
def userCand : ProxyCandidate := ⟨"9.9.9.9", 0, 0, 0, 0, true⟩

/-- A pool proxy candidate for the routing scenarios. -/
def poolCand : ProxyCandidate := ⟨"5.6.7.8", 8080, 3, 1, 1, false⟩

/-- Proxy-manager state with both a registered user IP and a pool proxy. -/
def pmBoth : PMState := ⟨[userCand, poolCand], [⟨"9.9.9.9", none, 1⟩]⟩

/-- Proxy-manager state with only a pool proxy. -/
def pmPoolOnly : PMState := ⟨[poolCand], []⟩

/-- Scraper state whose proxy manager knows the user IP `9.9.9.9` and the
pool proxy. -/
def sBoth : SState := ⟨[], [], pmBoth, 0⟩

/-! ## Helper lemmas -/

theorem lookup_insert {α : Type} (l : List (String × α)) (k k' : String)
    (v : α) :
    lookupAssoc (insertAssoc l k v) k' =
      if k' = k then some v else lookupAssoc l k' := by
  induction l with
  | nil =>
    by_cases h : k' = k
    · subst h; simp [insertAssoc, lookupAssoc]
    · simp [insertAssoc, lookupAssoc, h,
        show ¬(k = k') from fun hh => h hh.symm]
  | cons p rest ih =>
    by_cases hp : p.1 = k
    · by_cases h : k' = k
      · subst h; simp [insertAssoc, lookupAssoc, hp]
      · simp [insertAssoc, lookupAssoc, hp, h,
          show ¬(k = k') from fun hh => h hh.symm,
          show ¬(p.1 = k') from by rw [hp]; exact fun hh => h hh.symm]
    · by_cases h : k' = k
      · subst h; simp [insertAssoc, lookupAssoc, hp, ih]
      · simp [insertAssoc, lookupAssoc, hp, h, ih]

theorem exists_obj_of_hasKey (d : JVal) (k : String)
    (h : hasKey d k = true) : ∃ fs, d = .obj fs := by
  cases d <;> simp_all [hasKey, pyLookup]

theorem pyLookup_pySet (fs : List (String × JVal)) (k k' : String)
    (v : JVal) :
    pyLookup (pySet (.obj fs) k v) k' =
      if k' = k then some v else pyLookup (.obj fs) k' := by
  simp [pySet, pyLookup, lookup_insert]

theorem hasKey_pySet (fs : List (String × JVal)) (k k' : String)
    (v : JVal) :
    hasKey (pySet (.obj fs) k v) k' =
      (k' = k || hasKey (.obj fs) k') := by
  simp only [hasKey, pyLookup_pySet]
  by_cases h : k' = k <;> simp [h]

theorem pySet_obj (fs : List (String × JVal)) (k : String) (v : JVal) :
    ∃ fs2, pySet (.obj fs) k v = .obj fs2 :=
  ⟨insertAssoc fs k v, rfl⟩

/-! ## Claim theorems -/

/-- C3: route selection in `_make_request_with_proxy` follows the
precedence: a supplied-and-registered client IP wins (own-IP route),
otherwise the best pool candidate, otherwise direct; in particular the
first conjunct holds whatever `get_best_proxy` would return, so a known
user IP beats an available pool proxy. -/
theorem routing_precedence (pm : PMState) (ipstr : String)
    (e bp : ProxyCandidate) :
    (ipstr ≠ "" → getUserIpProxy pm ipstr = some e →
      selectRoute pm (some ipstr) = .userIp e.ip)
    ∧ (ipstr ≠ "" → getUserIpProxy pm ipstr = none →
        getBestProxy pm = some bp → selectRoute pm (some ipstr) = .pool bp)
    ∧ (ipstr ≠ "" → getUserIpProxy pm ipstr = none →
        getBestProxy pm = none → selectRoute pm (some ipstr) = .direct)
    ∧ (getBestProxy pm = some bp → selectRoute pm none = .pool bp)
    ∧ (getBestProxy pm = none → selectRoute pm none = .direct) := by
  have hne : ∀ h : ipstr ≠ "", ipstr.isEmpty = false := by
    intro h
    cases he : ipstr.isEmpty
    · rfl
    · exact absurd ((String.isEmpty_iff ipstr).mp he) h
  refine ⟨?_, ?_, ?_, ?_, ?_⟩
  · intro h hreg
    simp [selectRoute, truthyOpt, hne h, hreg]
  · intro h hreg hbest
    simp [selectRoute, truthyOpt, hne h, hreg, hbest]
  · intro h hreg hbest
    simp [selectRoute, truthyOpt, hne h, hreg, hbest]
  · intro hbest
    simp [selectRoute, truthyOpt, hbest]
  · intro hbest
    simp [selectRoute, truthyOpt, hbest]

/-- Witness for `routing_precedence`: concrete pools exercising each
hypothesis — a registered IP beating an available pool proxy, the pool
fallback, and the empty-pool direct route. -/
theorem routing_precedence_witness :
    selectRoute pmBoth (some "9.9.9.9") = .userIp "9.9.9.9"
    ∧ selectRoute pmPoolOnly (some "9.9.9.9") = .pool poolCand
    ∧ selectRoute ⟨[], []⟩ none = .direct := by
  refine ⟨?_, ?_, ?_⟩
  · exact (routing_precedence pmBoth "9.9.9.9" userCand poolCand).1
      (by decide) rfl
  · exact (routing_precedence pmPoolOnly "9.9.9.9" userCand poolCand).2.1
      (by decide) rfl rfl
  · exact (routing_precedence ⟨[], []⟩ "x" userCand poolCand).2.2.2.2 rfl

/-- C8 counterexample: `",5K"` is not "a number optionally suffixed by K
or M" (its comma is not part of any numeral), yet `_parse_count_string`
maps it to `5000`, not `0` — comma placement is erased, never validated. -/
theorem parse_count_counterexample :
    isNumberKM ",5K" = false ∧ parseCountString ",5K" = 5000 := by
  constructor
  · decide
  · set_option maxRecDepth 10000 in decide

/-- C8 amended: the concrete mappings hold ("1.2K" → 1200, "3M" →
3000000, "500" → 500; the parser is a total function, so it never
raises), and a string maps to `0` whenever its numeric text — after the
comma removal and uppercasing the code performs — is rejected by Python's
`float()`/`int()`. -/
theorem parse_count_amended :
    parseCountString "1.2K" = 1200 ∧ parseCountString "3M" = 3000000
    ∧ parseCountString "500" = 500
    ∧ ∀ s, countParseFails s = true → parseCountString s = 0 := by
  refine ⟨?_, ?_, ?_, ?_⟩
  · set_option maxRecDepth 10000 in decide
  · set_option maxRecDepth 10000 in decide
  · set_option maxRecDepth 10000 in decide
  · intro s h
    simp only [countParseFails] at h
    simp only [parseCountString]
    by_cases hk : chContains (strUpper (pyReplace s "," "")) 'K'
    · simp only [if_pos hk] at h ⊢
      rw [Option.isNone_iff_eq_none] at h
      simp [h]
    · by_cases hm : chContains (strUpper (pyReplace s "," "")) 'M'
      · simp only [if_neg hk, if_pos hm] at h ⊢
        rw [Option.isNone_iff_eq_none] at h
        simp [h]
      · simp only [if_neg hk, if_neg hm] at h ⊢
        rw [Option.isNone_iff_eq_none] at h
        simp [h]

/-- Witness for `parse_count_amended`: the unparseable string `"abc"`
maps to `0`. -/
theorem parse_count_amended_witness :
    countParseFails "abc" = true ∧ parseCountString "abc" = 0 :=
  ⟨by decide, parse_count_amended.2.2.2 "abc" (by decide)⟩

/-- C5: on the own-IP route the outbound request does NOT carry the
forwarding headers.  Concretely, with `9.9.9.9` registered the route is
`user_ip`, yet the emitted `session.get` uses exactly the regenerated
base headers, which contain neither `X-Forwarded-For` nor `X-Real-IP`:
the assignments at `scraper.py` lines 140-141 happen after `session.get`
has returned (and the header dict built in `_scrape_via_api` lines
269-279 is never passed on), contradicting the comment at line 139 that
announces the simulated origin. -/
theorem own_ip_headers_never_sent :
    selectRoute sBoth.pm (some "9.9.9.9") = .userIp "9.9.9.9"
    ∧ (makeRequestWithProxy envPlain sBoth (profileUrl "alice")
        (some "9.9.9.9") (some "UA") true).2.2 =
      [.sleepRand,
       .httpGet (profileUrl "alice") (mkHeaders envPlain (some "UA")) none,
       .perfUpdate "9.9.9.9" true 1]
    ∧ lookupAssoc (mkHeaders envPlain (some "UA")) "X-Forwarded-For" = none
    ∧ lookupAssoc (mkHeaders envPlain (some "UA")) "X-Real-IP" = none := by
  exact ⟨rfl, rfl, rfl, rfl⟩

/-- C1 counterexample: a transport whose every response is a 200 body
containing the private-account marker.  `scrape_profile` does NOT return
`PRIVATE_PROFILE`: the HTML strategy's `{"error": "PRIVATE_PROFILE"}` is
treated like any other strategy failure, the API strategy is tried next
(and fails on the non-JSON body), and the caller gets the generic
`SCRAPING_FAILED`. -/
theorem private_marker_counterexample :
    containsSub "This Account is Private" "This Account is Private" = true
    ∧ pyLookup (scrapeProfile envPrivate sEmpty "alice" none none).1 "error"
        = some (.str "SCRAPING_FAILED")
    ∧ pyLookup (scrapeProfile envPrivate sEmpty "alice" none none).1 "error"
        ≠ some (.str "PRIVATE_PROFILE") := by
  refine ⟨rfl, rfl, ?_⟩
  intro h
  have h2 : pyLookup (scrapeProfile envPrivate sEmpty "alice" none none).1
      "error" = some (.str "SCRAPING_FAILED") := rfl
  rw [h2] at h
  simp at h

/-- C1 amended: the private-account classification is accurate at the
strategy level — whenever the fetched profile page is a 200 response whose
body contains the marker, `_scrape_via_html` returns
`{"error": "PRIVATE_PROFILE"}`, for every JSON-extraction behaviour (the
marker check precedes any JSON work) — but `scrape_profile` treats that
error like any other strategy failure and falls through to the API
strategy, so the scrape-level result is that strategy's outcome or
`SCRAPING_FAILED`, not `PRIVATE_PROFILE`. -/
theorem private_marker_strategy (env : Env) (s : SState) (u : String)
    (ip ua : Option String) (body : String)
    (hf : ∀ pr, env.fetch (profileUrl u) pr = .ok ⟨200, body⟩)
    (hm : containsSub body "This Account is Private" = true) :
    (scrapeViaHtml env s u ip ua).1 = errObj "PRIVATE_PROFILE" := by
  unfold scrapeViaHtml makeRequestWithProxy
  simp [hf, hm]

/-- Witness for `private_marker_strategy` at the all-private transport. -/
theorem private_marker_strategy_witness :
    (scrapeViaHtml envPrivate sEmpty "alice" none none).1
      = errObj "PRIVATE_PROFILE" :=
  private_marker_strategy envPrivate sEmpty "alice" none none
    "This Account is Private" (fun _ => rfl) rfl

/-- C9: with no client IP supplied, `used_ip` is inconsistent across
paths — a fresh successful scrape stamps `used_ip = "pool_proxy"`
(line 217, even though this run went direct), the cache hit for the very
same call stamps `used_ip = "direct"` (line 194), and a failure also
reports `"direct"` (line 230); so the second, cached call differs from
the first in `used_ip` while the profile content is identical. -/
theorem used_ip_inconsistency :
    hasKey (scrapeProfile envPlain sEmpty "u9" none none).1 "error" = false
    ∧ pyLookup (scrapeProfile envPlain sEmpty "u9" none none).1 "used_ip"
        = some (.str "pool_proxy")
    ∧ pyLookup (scrapeProfile envPlain
          (scrapeProfile envPlain sEmpty "u9" none none).2.1
          "u9" none none).1 "used_ip" = some (.str "direct")
    ∧ pyLookup (scrapeProfile envPlain
          (scrapeProfile envPlain sEmpty "u9" none none).2.1
          "u9" none none).1 "cached" = some (.bool true)
    ∧ pyLookup (scrapeProfile envPlain
          (scrapeProfile envPlain sEmpty "u9" none none).2.1
          "u9" none none).1 "profile"
        = pyLookup (scrapeProfile envPlain sEmpty "u9" none none).1 "profile"
    ∧ pyLookup (scrapeProfile envDown sEmpty "u9" none none).1 "used_ip"
        = some (.str "direct") :=
  ⟨rfl, rfl, rfl, rfl, rfl, rfl⟩

theorem recordPerf_caches (s : SState) (route : Route)
    (ip : Option String) (succ : Bool) (lat : ℚ) :
    (recordPerf s route ip succ lat).1.reqCache = s.reqCache
    ∧ (recordPerf s route ip succ lat).1.profCache = s.profCache := by
  unfold recordPerf
  split <;> exact ⟨rfl, rfl⟩

theorem makeRequest_profCache (env : Env) (s : SState) (url : String)
    (ip ua : Option String) (uc : Bool) :
    (makeRequestWithProxy env s url ip ua uc).2.1.profCache
      = s.profCache := by
  simp only [makeRequestWithProxy, recordPerf]
  repeat' split
  all_goals rfl

/-- C6: the request cache of `_make_request_with_proxy` only ever gains
200-status responses, and a hit short-circuits everything — the cached
response is returned with the state untouched (no cache insertion, no
proxy-statistics change) and an empty event trace (no randomized delay,
no `update_proxy_performance`). -/
theorem request_cache_discipline (env : Env) (s : SState) (url : String)
    (ip ua : Option String) (uc : Bool) (resp : Response) :
    (lookupAssoc s.reqCache ("request:" ++ url ++ ":" ++ optFmt ip)
        = some resp →
      makeRequestWithProxy env s url ip ua true = (some resp, s, []))
    ∧ (∀ k v,
        lookupAssoc
          (makeRequestWithProxy env s url ip ua uc).2.1.reqCache k
          = some v →
        lookupAssoc s.reqCache k = some v ∨ v.status = 200) := by
  constructor
  · intro h
    simp only [makeRequestWithProxy]
    rw [h]
  · intro k v hv
    simp only [makeRequestWithProxy, recordPerf] at hv
    repeat' split at hv
    all_goals
      first
        | exact Or.inl hv
        | (rw [lookup_insert] at hv
           split at hv
           · cases hv
             simp_all
           · exact Or.inl hv)

/-- Witness for `request_cache_discipline`: a concrete pre-cached
response is returned unchanged, and the only-200-insertions conjunct
instantiated at the entry a fresh 200 fetch adds. -/
theorem request_cache_discipline_witness :
    makeRequestWithProxy envPlain
        ⟨[("request:https://x:None", ⟨200, "B"⟩)], [], ⟨[], []⟩, 0⟩
        "https://x" none none true
      = (some ⟨200, "B"⟩,
         ⟨[("request:https://x:None", ⟨200, "B"⟩)], [], ⟨[], []⟩, 0⟩, [])
    ∧ (lookupAssoc sEmpty.reqCache "request:https://x:None"
        = some ⟨200, "hello world"⟩
       ∨ (Response.mk 200 "hello world").status = 200) :=
  ⟨(request_cache_discipline envPlain
      ⟨[("request:https://x:None", ⟨200, "B"⟩)], [], ⟨[], []⟩, 0⟩
      "https://x" none none true ⟨200, "B"⟩).1 rfl,
   (request_cache_discipline envPlain sEmpty "https://x" none none true
      ⟨200, "B"⟩).2 "request:https://x:None" ⟨200, "hello world"⟩ rfl⟩

/-- C7: a timeout or connection error on the own-IP or pool route makes
`_make_request_with_proxy` return `None` (never raising) after recording
exactly one proxy-performance outcome — against the route's identifying
IP, with `success = false` and the 10.0-second penalty latency. -/
theorem timeout_records_failure (env : Env) (s : SState) (url : String)
    (ip ua : Option String) (uc : Bool) (pip : String)
    (hmiss : uc = false
      ∨ lookupAssoc s.reqCache ("request:" ++ url ++ ":" ++ optFmt ip)
          = none)
    (hroute : routePerfIp (selectRoute s.pm ip) ip = some pip)
    (hfetch :
      env.fetch url (emittedProxies (selectRoute s.pm ip)) = .timeout
      ∨ env.fetch url (emittedProxies (selectRoute s.pm ip))
          = .connError) :
    (makeRequestWithProxy env s url ip ua uc).1 = none
    ∧ ((makeRequestWithProxy env s url ip ua uc).2.2.filter isPerfUpdate)
        = [.perfUpdate pip false 10] := by
  cases uc with
  | false =>
    simp only [makeRequestWithProxy, recordPerf]
    rcases hfetch with hf | hf <;> rw [hf] <;> rw [hroute] <;>
      simp [isPerfUpdate]
  | true =>
    rcases hmiss with h | h
    · cases h
    · simp only [makeRequestWithProxy, recordPerf, h]
      rcases hfetch with hf | hf <;> rw [hf] <;> rw [hroute] <;>
        simp [isPerfUpdate]

/-- Witness for `timeout_records_failure`: the all-timeout transport on
the registered own-IP route records the single penalized failure against
`9.9.9.9` and yields `none`. -/
theorem timeout_records_failure_witness :
    (makeRequestWithProxy envDown sBoth "https://x" (some "9.9.9.9")
        none true).1 = none
    ∧ ((makeRequestWithProxy envDown sBoth "https://x" (some "9.9.9.9")
        none true).2.2.filter isPerfUpdate)
        = [.perfUpdate "9.9.9.9" false 10] :=
  timeout_records_failure envDown sBoth "https://x" (some "9.9.9.9")
    none true "9.9.9.9" (Or.inr rfl) rfl (Or.inl rfl)

/-- C10: the heuristic HTML fallback is total and error-free — for every
200 body with neither marker and no embedded JSON, `_scrape_via_html`
returns exactly the `_parse_html_directly` profile dictionary (never an
error, in particular never `USER_DATA_NOT_FOUND` on this path), and each
count statistic defaults to `0` when its regex finds nothing. -/
theorem html_fallback_total (env : Env) (s : SState) (u : String)
    (ip ua : Option String) (body : String)
    (hf : ∀ pr, env.fetch (profileUrl u) pr = .ok ⟨200, body⟩)
    (h1 : containsSub body "This Account is Private" = false)
    (h2 : containsSub (strLower body) "account is private" = false)
    (h3 : containsSub body "Sorry, this page isn\x27t available" = false)
    (h4 : env.extractJson body = none) :
    (scrapeViaHtml env s u ip ua).1 = parseHtmlDirectly env body u
    ∧ hasKey (scrapeViaHtml env s u ip ua).1 "error" = false
    ∧ (env.regexSearch followersPattern body = none →
        statLookup (scrapeViaHtml env s u ip ua).1 "followers"
          = some (.num 0))
    ∧ (env.regexSearch followingPattern body = none →
        statLookup (scrapeViaHtml env s u ip ua).1 "following"
          = some (.num 0))
    ∧ (env.regexSearch postsPattern body = none →
        statLookup (scrapeViaHtml env s u ip ua).1 "posts"
          = some (.num 0)) := by
  have hmain : (scrapeViaHtml env s u ip ua).1
      = parseHtmlDirectly env body u := by
    simp only [scrapeViaHtml, makeRequestWithProxy]
    simp [hf, h1, h2, h3, h4]
  refine ⟨hmain, ?_, ?_, ?_, ?_⟩
  · rw [hmain]; rfl
  · intro hr
    rw [hmain]
    simp [statLookup, parseHtmlDirectly, pyLookup, lookupAssoc,
      extractCount, hr]
  · intro hr
    rw [hmain]
    simp [statLookup, parseHtmlDirectly, pyLookup, lookupAssoc,
      extractCount, hr]
  · intro hr
    rw [hmain]
    simp [statLookup, parseHtmlDirectly, pyLookup, lookupAssoc,
      extractCount, hr]

/-- Witness for `html_fallback_total`: the plain 200 transport with no
matches yields the fallback profile with all-zero statistics. -/
theorem html_fallback_total_witness :
    (scrapeViaHtml envPlain sEmpty "u9" none none).1
      = parseHtmlDirectly envPlain "hello world" "u9"
    ∧ statLookup (scrapeViaHtml envPlain sEmpty "u9" none none).1
        "followers" = some (.num 0) :=
  ⟨(html_fallback_total envPlain sEmpty "u9" none none "hello world"
      (fun _ => rfl) rfl rfl rfl rfl).1,
   (html_fallback_total envPlain sEmpty "u9" none none "hello world"
      (fun _ => rfl) rfl rfl rfl rfl).2.2.1 rfl⟩

theorem scrapeProfile_hit (env : Env) (s : SState) (u : String)
    (ip ua : Option String) (d : JVal)
    (h : lookupAssoc s.profCache ("profile:" ++ u ++ ":" ++ optFmt ip)
      = some d) :
    scrapeProfile env s u ip ua
      = (pySet (pySet d "cached" (.bool true)) "used_ip"
          (.str (pyOrStr ip "direct")),
         ⟨s.reqCache,
          insertAssoc s.profCache ("profile:" ++ u ++ ":" ++ optFmt ip)
            (pySet (pySet d "cached" (.bool true)) "used_ip"
              (.str (pyOrStr ip "direct"))),
          s.pm, s.reqCount⟩,
         []) := by
  simp only [scrapeProfile, h]

theorem scrapeProfile_stores (env : Env) (s : SState) (u : String)
    (ip ua : Option String)
    (h : hasKey (scrapeProfile env s u ip ua).1 "error" = false) :
    lookupAssoc (scrapeProfile env s u ip ua).2.1.profCache
        ("profile:" ++ u ++ ":" ++ optFmt ip)
      = some (scrapeProfile env s u ip ua).1 := by
  have missCase : ∀ (s0 : SState),
      hasKey (scrapeProfileMiss env ("profile:" ++ u ++ ":" ++ optFmt ip)
        s0 u ip ua).1 "error" = false →
      lookupAssoc (scrapeProfileMiss env
          ("profile:" ++ u ++ ":" ++ optFmt ip) s0 u ip ua).2.1.profCache
          ("profile:" ++ u ++ ":" ++ optFmt ip)
        = some (scrapeProfileMiss env
          ("profile:" ++ u ++ ":" ++ optFmt ip) s0 u ip ua).1 := by
    intro s0 h0
    simp only [scrapeProfileMiss] at h0 ⊢
    split
    · simp [finalizeResult, lookup_insert]
    · split
      · simp [finalizeResult, lookup_insert]
      · rename_i hc hc2
        rw [if_neg hc, if_neg hc2] at h0
        simp [hasKey, pyLookup, lookupAssoc] at h0
  simp only [scrapeProfile] at h ⊢
  split
  · rename_i d heq
    rw [heq] at h
    simp [lookup_insert]
  · rename_i heq
    rw [heq] at h
    exact missCase _ h

/-- C2: idempotence under the profile cache.  If a `scrape_profile` call
for `(username, client_ip)` returned a profile (no `error` key, a
`profile` key) and the entry is still present (the model's rendering of
"within the TTL window"), the second identical call returns the same
profile and posts content with `cached = true`, and its event trace
records no `update_proxy_performance` call (indeed no events at all). -/
theorem cached_call_idempotent (env : Env) (s : SState) (u : String)
    (ip ua : Option String)
    (h1 : hasKey (scrapeProfile env s u ip ua).1 "error" = false)
    (h2 : hasKey (scrapeProfile env s u ip ua).1 "profile" = true) :
    pyLookup (scrapeProfile env (scrapeProfile env s u ip ua).2.1
        u ip ua).1 "profile"
      = pyLookup (scrapeProfile env s u ip ua).1 "profile"
    ∧ pyLookup (scrapeProfile env (scrapeProfile env s u ip ua).2.1
        u ip ua).1 "posts"
      = pyLookup (scrapeProfile env s u ip ua).1 "posts"
    ∧ pyLookup (scrapeProfile env (scrapeProfile env s u ip ua).2.1
        u ip ua).1 "cached" = some (.bool true)
    ∧ (scrapeProfile env (scrapeProfile env s u ip ua).2.1
        u ip ua).2.2.filter isPerfUpdate = [] := by
  have hstore := scrapeProfile_stores env s u ip ua h1
  have hsec := scrapeProfile_hit env (scrapeProfile env s u ip ua).2.1
    u ip ua (scrapeProfile env s u ip ua).1 hstore
  rw [hsec]
  obtain ⟨fs, hfs⟩ := exists_obj_of_hasKey _ _ h2
  rw [hfs]
  refine ⟨?_, ?_, ?_, rfl⟩
  · simp [pySet, pyLookup, lookup_insert,
      show ¬(("profile" : String) = "used_ip") from by decide,
      show ¬(("profile" : String) = "cached") from by decide]
  · simp [pySet, pyLookup, lookup_insert,
      show ¬(("posts" : String) = "used_ip") from by decide,
      show ¬(("posts" : String) = "cached") from by decide]
  · simp [pySet, pyLookup, lookup_insert,
      show ¬(("cached" : String) = "used_ip") from by decide]

/-- Witness for `cached_call_idempotent`: the plain transport scenario in
which the first call freshly scrapes `u9` and the second call hits the
cache. -/
theorem cached_call_idempotent_witness :
    hasKey (scrapeProfile envPlain sEmpty "u9" none none).1 "error" = false
    ∧ hasKey (scrapeProfile envPlain sEmpty "u9" none none).1 "profile"
        = true
    ∧ pyLookup (scrapeProfile envPlain
        (scrapeProfile envPlain sEmpty "u9" none none).2.1
        "u9" none none).1 "cached" = some (.bool true) :=
  ⟨rfl, rfl,
   (cached_call_idempotent envPlain sEmpty "u9" none none rfl rfl).2.2.1⟩

theorem buildProfilePayload_shape (user identity r : JVal)
    (hb : buildProfilePayload user identity = .ok r) :
    hasKey r "error" = false ∧ hasKey r "profile" = true := by
  simp only [buildProfilePayload, PyRes.bind] at hb
  repeat' split at hb
  all_goals cases hb
  all_goals exact ⟨rfl, rfl⟩

theorem parseHtmlResponse_shape (j : JVal) (u : String) :
    (hasKey (parseHtmlResponse j u) "error"
      || hasKey (parseHtmlResponse j u) "profile") = true := by
  simp only [parseHtmlResponse]
  split
  · rfl
  · rfl
  · split
    · rename_i payload heq
      simp only [PyRes.bind] at heq
      split at heq
      · exact Bool.or_eq_true_iff.mpr
          (Or.inr (buildProfilePayload_shape _ _ _ heq).2)
      · cases heq
    · rfl

theorem scrapeViaHtml_shape (env : Env) (s : SState) (u : String)
    (ip ua : Option String) :
    (hasKey (scrapeViaHtml env s u ip ua).1 "error"
      || hasKey (scrapeViaHtml env s u ip ua).1 "profile") = true := by
  simp only [scrapeViaHtml]
  repeat' split
  all_goals first
    | rfl
    | exact parseHtmlResponse_shape _ _

theorem scrapeViaApi_shape (env : Env) (s : SState) (u : String)
    (ip ua : Option String) :
    (hasKey (scrapeViaApi env s u ip ua).1 "error"
      || hasKey (scrapeViaApi env s u ip ua).1 "profile") = true := by
  simp only [scrapeViaApi]
  repeat' split
  all_goals first
    | rfl
    | (rename_i payload heq
       simp only [parseApiResponse, PyRes.bind] at heq
       split at heq
       · exact Bool.or_eq_true_iff.mpr
           (Or.inr (buildProfilePayload_shape _ _ _ heq).2)
       · cases heq)

theorem finalize_wf (env : Env) (key : String) (ip : Option String)
    (r : JVal) (st : SState) (ev : List Event)
    (hp : hasKey r "profile" = true) (he : hasKey r "error" = false) :
    wellFormedResult (finalizeResult env key ip r st ev).1 = true := by
  obtain ⟨fs, rfl⟩ := exists_obj_of_hasKey _ _ hp
  simp [finalizeResult, wellFormedResult, pySet, hasKey, pyLookup,
    lookup_insert,
    show ¬(("error" : String) = "used_ip") from by decide,
    show ¬(("error" : String) = "cached") from by decide,
    show ¬(("error" : String) = "data_points") from by decide,
    show ¬(("error" : String) = "extraction_time") from by decide,
    show ¬(("profile" : String) = "used_ip") from by decide,
    show ¬(("profile" : String) = "cached") from by decide,
    show ¬(("profile" : String) = "data_points") from by decide,
    show ¬(("profile" : String) = "extraction_time") from by decide,
    show ¬(("cached" : String) = "used_ip") from by decide]
  simp [hasKey, pyLookup] at hp he
  simp [hp, he]

theorem hit_wf (d v : JVal) (b : Bool) (hd : isProfileShape d = true) :
    wellFormedResult (pySet (pySet d "cached" (.bool b)) "used_ip" v)
      = true := by
  simp only [isProfileShape, Bool.and_eq_true, Bool.not_eq_true'] at hd
  obtain ⟨he, hp⟩ := hd
  obtain ⟨fs, rfl⟩ := exists_obj_of_hasKey _ _ hp
  simp [wellFormedResult, pySet, hasKey, pyLookup, lookup_insert,
    show ¬(("error" : String) = "used_ip") from by decide,
    show ¬(("error" : String) = "cached") from by decide,
    show ¬(("profile" : String) = "used_ip") from by decide,
    show ¬(("profile" : String) = "cached") from by decide,
    show ¬(("cached" : String) = "used_ip") from by decide]
  simp [hasKey, pyLookup] at hp he
  simp [hp, he]

/-- C4: `scrape_profile` never lets a fault escape — for every state whose
profile cache holds only profile-shaped entries (true from the initial
empty cache on) and every valid username, the result is a well-formed
profile result or a typed error dictionary.  Transport and parse failures
are converted at each strategy boundary (`REQUEST_FAILED`,
`HTML_PARSING_FAILED`/`PARSING_ERROR`, `API_FAILED`, ...), and the
collaborator operations (modelled from the spec) are total. -/
theorem scrape_never_raises (env : Env) (s : SState) (u : String)
    (ip ua : Option String) (hu : validUsername u = true)
    (hwf : profCacheWF s) :
    wellFormedResult (scrapeProfile env s u ip ua).1 = true := by
  have hmiss : ∀ (s0 : SState) (key : String),
      wellFormedResult (scrapeProfileMiss env key s0 u ip ua).1
        = true := by
    intro s0 key
    simp only [scrapeProfileMiss]
    split
    · rename_i hc
      rw [Bool.and_eq_true, Bool.not_eq_true'] at hc
      have hsh := scrapeViaHtml_shape env s0 u ip ua
      rw [hc.2, Bool.false_or] at hsh
      exact finalize_wf env key ip _ _ _ hsh hc.2
    · split
      · rename_i hc2
        rw [Bool.and_eq_true, Bool.not_eq_true'] at hc2
        have hsh := scrapeViaApi_shape env
          (scrapeViaHtml env s0 u ip ua).2.1 u ip ua
        rw [hc2.2, Bool.false_or] at hsh
        exact finalize_wf env key ip _ _ _ hsh hc2.2
      · rfl
  simp only [scrapeProfile]
  split
  · rename_i d heq
    exact hit_wf d _ true (hwf _ _ heq)
  · exact hmiss _ _

/-- Witness for `scrape_never_raises`: a valid username against the plain
transport from the empty initial state. -/
theorem scrape_never_raises_witness :
    validUsername "alice" = true
    ∧ wellFormedResult (scrapeProfile envPlain sEmpty "alice"
        none none).1 = true :=
  ⟨by decide,
   scrape_never_raises envPlain sEmpty "alice" none none (by decide)
     (fun k v h => by simp [sEmpty, lookupAssoc] at h)⟩
